import Mathlib

/-!
Shallow embedding of the python-zibopt binding layer.

The repository wraps the SCIP mixed-integer programming engine for Python.
Two source files are embedded here:

  * src/src/ext/varsmodule.c  — variable creation (variable_init), the
    priority attribute hooks (variable_getattr / variable_setattr), the
    objective-coefficient setter and the bound tighteners
    (variable_tighten_lower / variable_tighten_upper);
  * src/unnamed/part_000      — the solver module: _seed_primal, _optimize,
    solver_maximize / solver_minimize, solver_restart, solver_unconstrain.

Modelling conventions:

  * C doubles are rationals (ℚ); the claims are about comparisons and
    clamping, not floating-point rounding.
  * Python objects passed as values are PyValue: a Python int (PyLong), a
    Python float (PyFloat), or any other object.  PyFloat_Check /
    PyLong_Check / PyFloat_AsDouble are the obvious discriminators.
  * Calls into the SCIP engine are recorded in a trace (List EngineCall).
    A call appears in the trace exactly when it was executed and the engine
    reported success; an EngineOracle says which engine entry points
    succeed, so failure paths of PY_SCIP_CALL can be exercised.  Engine
    calls that the wrapped library essentially cannot fail on
    (SCIPsetObjsense, clock reset, direct limit-field writes) are modelled
    as always succeeding.
  * Engine-side session state (problem stage, objective sense, resource
    limits) is obtained by replaying a trace over a SolverState with
    applyTrace; layer-side cached state (a variable object's cached lower
    and upper bound, its branching priority as stored by the engine) is
    threaded explicitly through the functions that touch it.
  * PyErr_SetString is modelled by returning some message; a later
    PyErr_SetString overwrites a pending one, as in CPython.
-/

namespace PyZibopt

/-- A Python object handed to the binding as a value: a Python int
(PyLong), a Python float (PyFloat), or any other object. -/
inductive PyValue
  | int : Int → PyValue
  | float : ℚ → PyValue
  | other : PyValue
  deriving DecidableEq, Repr

/-- PyFloat_Check(v) || PyLong_Check(v): the numeric check used by
set_coefficient, the tighteners and the seed validator. -/
def PyValue.isNumeric : PyValue → Bool
  | .int _ => true
  | .float _ => true
  | .other => false

/-- PyLong_Check(v): the check used by the priority setter. -/
def PyValue.isInt : PyValue → Bool
  | .int _ => true
  | _ => false

/-- PyFloat_AsDouble on a float, (double) PyLong_AsLong on an int.  The
other case is unreachable behind the numeric checks. -/
def PyValue.asDouble : PyValue → ℚ
  | .int n => (n : ℚ)
  | .float q => q
  | .other => 0

/-- Objective sense, SCIP_OBJSENSE_MAXIMIZE / SCIP_OBJSENSE_MINIMIZE. -/
inductive Sense
  | minimize
  | maximize
  deriving DecidableEq, Repr

/-- Engine-side problem stage: unsolved (original problem),
transformed (after SCIPtransformProb), solved (after SCIPsolve).
SCIPfreeTransform returns the problem to unsolved. -/
inductive Stage
  | unsolved
  | transformed
  | solved
  deriving DecidableEq, Repr

/-- One successful call into the SCIP engine, as issued by this layer. -/
inductive EngineCall
  | createVar : Int → ℚ → ℚ → ℚ → EngineCall
  | addVar : EngineCall
  | chgBranchPriority : Int → EngineCall
  | chgVarLb : ℚ → EngineCall
  | chgVarUb : ℚ → EngineCall
  | chgObj : ℚ → EngineCall
  | freeTransform : EngineCall
  | delCons : Nat → EngineCall
  | transformProb : EngineCall
  | createSol : EngineCall
  | setSolVal : Nat → ℚ → EngineCall
  | checkSolOrig : EngineCall
  | trySolFree : EngineCall
  | setObjsense : Sense → EngineCall
  | clockReset : EngineCall
  | setLimits : ℚ → ℚ → ℚ → Int → ℚ → EngineCall
  | solve : EngineCall
  deriving DecidableEq, Repr

/-- Which engine entry points report success.  The feasible field is the
value SCIPcheckSolOrig writes into its feasible out-parameter when the
check itself succeeds. -/
structure EngineOracle where
  createVarOk : Bool := true
  addVarOk : Bool := true
  chgPrioOk : Bool := true
  chgVarLbOk : Bool := true
  chgVarUbOk : Bool := true
  chgObjOk : Bool := true
  freeTransformOk : Bool := true
  delConsOk : Bool := true
  checkSolOk : Bool := true
  feasible : Bool := true
  solveOk : Bool := true
  deriving DecidableEq, Repr

/-- The bound cache kept on a variable C object: self->lower and
self->upper in varsmodule.c. -/
structure VarState where
  lower : ℚ
  upper : ℚ
  deriving DecidableEq, Repr

/-- Engine-side state of one solver session that the embedded calls can
mutate: problem stage, objective sense, and the live limit settings
written by _optimize. -/
structure SolverState where
  scip : Nat
  stage : Stage := .unsolved
  sense : Sense := .minimize
  limit_time : ℚ := 0
  limit_gap : ℚ := 0
  limit_absgap : ℚ := 0
  limit_solutions : Int := 0
  objoffset : ℚ := 0
  deriving DecidableEq, Repr

/-- Effect of one successful engine call on the session state. -/
def applyCall (s : SolverState) : EngineCall → SolverState
  | .setObjsense x => { s with sense := x }
  | .freeTransform => { s with stage := .unsolved }
  | .transformProb => { s with stage := .transformed }
  | .solve => { s with stage := .solved }
  | .setLimits t g a n o =>
      { s with limit_time := t, limit_gap := g, limit_absgap := a,
               limit_solutions := n, objoffset := o }
  | _ => s

/-- Replay a trace of engine calls over a session state. -/
def applyTrace (s : SolverState) (t : List EngineCall) : SolverState :=
  t.foldl applyCall s

/-- Type name of solver objects, the tp_name of solver_type in
src/unnamed/part_000. -/
def SOLVER_TYPE_NAME : String := "_scip.solver"

/-- Type name of variable objects, the tp_name of variable_type in
src/src/ext/varsmodule.c. -/
def VARIABLE_TYPE_NAME : String := "_vars.variable"

/-- Type name of constraint objects.  The macro lives in the header
python_zibopt.h, which is not under src/; the value follows the naming
pattern of the two module files present.  Only equality with argument
type names matters to the claims, never the concrete string. -/
def CONSTRAINT_TYPE_NAME : String := "_cons.constraint"

/-- SCIP_VARTYPE_BINARY from the SCIP headers. -/
def SCIP_VARTYPE_BINARY : Int := 0

/-- SCIP_VARTYPE_INTEGER from the SCIP headers. -/
def SCIP_VARTYPE_INTEGER : Int := 1

/-- SCIP_VARTYPE_IMPLINT from the SCIP headers. -/
def SCIP_VARTYPE_IMPLINT : Int := 2

/-- SCIP_VARTYPE_CONTINUOUS from the SCIP headers. -/
def SCIP_VARTYPE_CONTINUOUS : Int := 3

/-- variable_init from varsmodule.c, after argument parsing: checks the
solver argument type, normalises the variable type (unrecognised codes
fall back to continuous; the binary branch clips a negative lower to 0
and an upper above 1 to 1), creates the variable through the engine,
caches the bounds on the object, adds the variable, and applies a
nonzero branching priority.  Returns (pending error, cached bound state
of the new object when one was created, engine trace). -/
def variable_init (g : EngineOracle) (solverName : String) (t : Int)
    (c lhs rhs : ℚ) (priority : Int) :
    Option String × Option VarState × List EngineCall :=
  if solverName ≠ SOLVER_TYPE_NAME then
    (some "invalid solver type", none, [])
  else
    let tlr : Int × ℚ × ℚ :=
      if t ≠ SCIP_VARTYPE_BINARY ∧ t ≠ SCIP_VARTYPE_INTEGER ∧
         t ≠ SCIP_VARTYPE_IMPLINT then
        (SCIP_VARTYPE_CONTINUOUS, lhs, rhs)
      else if t = SCIP_VARTYPE_BINARY then
        (t, if lhs < 0 then 0 else lhs, if rhs > 1 then 1 else rhs)
      else
        (t, lhs, rhs)
    if ¬ g.createVarOk then
      (some "scip createVar error", none, [])
    else
      let st : VarState := { lower := tlr.2.1, upper := tlr.2.2 }
      let tr0 : List EngineCall := [.createVar tlr.1 tlr.2.1 tlr.2.2 c]
      if ¬ g.addVarOk then
        (some "scip addVar error", some st, tr0)
      else if priority ≠ 0 then
        if g.chgPrioOk then
          (none, some st, tr0 ++ [.addVar, .chgBranchPriority priority])
        else
          (some "scip chgBranchPriority error", some st, tr0 ++ [.addVar])
      else
        (none, some st, tr0 ++ [.addVar])

/-- Result of an attribute read: the special-cased priority value, or a
fall-through to the generic attribute machinery. -/
inductive GetattrResult
  | value : Int → GetattrResult
  | generic : GetattrResult
  deriving DecidableEq, Repr

/-- variable_getattr from varsmodule.c: the priority attribute returns
the live engine branching priority (SCIPvarGetBranchPriority); any other
name falls through to generic lookup. -/
def variable_getattr (enginePrio : Int) (attrName : String) : GetattrResult :=
  if attrName = "priority" then .value enginePrio else .generic

/-- Result of an attribute write: success, an error raised with a
message, or a fall-through to the generic attribute machinery. -/
inductive SetattrOutcome
  | ok : SetattrOutcome
  | errSet : String → SetattrOutcome
  | generic : SetattrOutcome
  deriving DecidableEq, Repr

/-- variable_setattr from varsmodule.c: writing priority with a Python
int commits SCIPchgVarBranchPriority; any other value raises an error;
other attribute names fall through.  Returns (outcome, engine branching
priority afterwards, engine trace). -/
def variable_setattr (g : EngineOracle) (enginePrio : Int)
    (attrName : String) (value : PyValue) :
    SetattrOutcome × Int × List EngineCall :=
  if attrName = "priority" then
    match value with
    | .int n =>
        if g.chgPrioOk then (.ok, n, [.chgBranchPriority n])
        else (.errSet "scip chgBranchPriority error", enginePrio, [])
    | _ => (.errSet "invalid value for variable branching priority",
            enginePrio, [])
  else
    (.generic, enginePrio, [])

/-- variable_tighten_lower from varsmodule.c: numeric argument required;
a value strictly above the cached lower bound is committed to the engine
(SCIPchgVarLb) and then cached; otherwise nothing happens.  Returns
(pending error, cached bound state afterwards, engine trace). -/
def variable_tighten_lower (g : EngineOracle) (self : VarState)
    (arg : PyValue) : Option String × VarState × List EngineCall :=
  if arg.isNumeric then
    let d := arg.asDouble
    if d > self.lower then
      if g.chgVarLbOk then
        (none, { self with lower := d }, [.chgVarLb d])
      else
        (some "scip chgVarLb error", self, [])
    else
      (none, self, [])
  else
    (some "invalid lower bound", self, [])

/-- variable_tighten_upper from varsmodule.c: numeric argument required;
a value strictly below the cached upper bound is committed to the engine
(SCIPchgVarUb) and then cached; otherwise nothing happens. -/
def variable_tighten_upper (g : EngineOracle) (self : VarState)
    (arg : PyValue) : Option String × VarState × List EngineCall :=
  if arg.isNumeric then
    let d := arg.asDouble
    if d < self.upper then
      if g.chgVarUbOk then
        (none, { self with upper := d }, [.chgVarUb d])
      else
        (some "scip chgVarUb error", self, [])
    else
      (none, self, [])
  else
    (some "invalid upper bound", self, [])

/-- A key of a primal-seed mapping as the C code sees it: the tp_name of
the key object, the scip pointer stored on it when it is a variable
object, and an identity for the underlying SCIP variable.  Non-variable
key objects simply carry a different tp_name. -/
structure SeedKey where
  tp_name : String
  scip : Nat
  varId : Nat
  deriving DecidableEq, Repr

/-- One (key, value) entry of the seed dictionary, in iteration order. -/
structure SeedEntry where
  key : SeedKey
  value : PyValue
  deriving DecidableEq, Repr

/-- The three per-entry checks of the first pass of _seed_primal, as one
Boolean: key is not of the variable type, or the key is a variable owned
by a different solver, or the value is not numeric. -/
def SeedEntry.invalidB (selfScip : Nat) (e : SeedEntry) : Bool :=
  e.key.tp_name ≠ VARIABLE_TYPE_NAME ∨ e.key.scip ≠ selfScip ∨
    e.value.isNumeric = false

/-- First pass of _seed_primal from src/unnamed/part_000: walk the
entries and raise on the first violation — wrong key type, key not
associated with this solver, or non-numeric value. -/
def seedValidate (selfScip : Nat) : List SeedEntry → Option String
  | [] => none
  | e :: rest =>
      if e.key.tp_name ≠ VARIABLE_TYPE_NAME then
        some "invalid variable type"
      else if e.key.scip ≠ selfScip then
        some "variable not associated with solver"
      else if e.value.isNumeric = false then
        some "solution values must be numeric"
      else
        seedValidate selfScip rest

/-- Second pass of _seed_primal: the SCIPsetSolVal calls, one per entry
with a nonzero value, in iteration order. -/
def seedAssigns (entries : List SeedEntry) : List EngineCall :=
  entries.filterMap fun e =>
    if e.value.asDouble ≠ 0 then
      some (.setSolVal e.key.varId e.value.asDouble)
    else
      none

/-- _seed_primal from src/unnamed/part_000.  A missing or empty mapping
does nothing.  Otherwise: validate every entry (first pass, no engine
calls); then transform the problem, create a candidate solution, assign
the nonzero values; check the candidate against the original problem and
report infeasibility as an error; finally offer the candidate to the
engine with SCIPtrySolFree regardless of the check outcome (the stored
flag is ignored).  Returns (pending error, engine trace). -/
def _seed_primal (g : EngineOracle) (selfScip : Nat)
    (solution : Option (List SeedEntry)) :
    Option String × List EngineCall :=
  match solution with
  | none => (none, [])
  | some entries =>
    if entries.length > 0 then
      match seedValidate selfScip entries with
      | some msg => (some msg, [])
      | none =>
        let pre : List EngineCall :=
          .transformProb :: .createSol :: seedAssigns entries
        if g.checkSolOk then
          if g.feasible then
            (none, pre ++ [.checkSolOrig, .trySolFree])
          else
            (some "infeasible primal solution",
             pre ++ [.checkSolOrig, .trySolFree])
        else
          (some "scip checkSolOrig error", pre)
    else
      (none, [])

/-- The solution argument of an optimize call after CPython argument
parsing with the O! dict converter: absent, a dict with its entries, or
an object that is not a dict (which makes parsing itself fail). -/
inductive SolutionArg
  | absent
  | dict : List SeedEntry → SolutionArg
  | nonDict
  deriving DecidableEq, Repr

/-- The mapping _seed_primal receives for each parsed solution argument;
for nonDict the parse fails before _seed_primal runs. -/
def SolutionArg.toSeed : SolutionArg → Option (List SeedEntry)
  | .absent => none
  | .dict l => some l
  | .nonDict => none

/-- _optimize from src/unnamed/part_000: parse arguments (a non-dict
solution object fails the O! converter and returns at once), seed the
primal solution and abort if any error is pending, then reset the
solving clock, write the five limit settings, and invoke SCIPsolve.
Returns (pending error, engine trace). -/
def _optimize (g : EngineOracle) (selfScip : Nat) (solArg : SolutionArg)
    (time gap absgap : ℚ) (nsol : Int) (offset : ℚ) :
    Option String × List EngineCall :=
  match solArg with
  | .nonDict => (some "optimize argument must be a dict", [])
  | _ =>
    let r := _seed_primal g selfScip solArg.toSeed
    match r.1 with
    | some msg => (some msg, r.2)
    | none =>
      let tr2 := r.2 ++ [.clockReset, .setLimits time gap absgap nsol offset]
      if g.solveOk then (none, tr2 ++ [.solve])
      else (some "scip solve error", tr2)

/-- solver_maximize from src/unnamed/part_000: set the objective sense
to maximize, then run _optimize. -/
def solver_maximize (g : EngineOracle) (selfScip : Nat)
    (solArg : SolutionArg) (time gap absgap : ℚ) (nsol : Int) (offset : ℚ) :
    Option String × List EngineCall :=
  let r := _optimize g selfScip solArg time gap absgap nsol offset
  (r.1, .setObjsense .maximize :: r.2)

/-- solver_minimize from src/unnamed/part_000: set the objective sense
to minimize, then run _optimize. -/
def solver_minimize (g : EngineOracle) (selfScip : Nat)
    (solArg : SolutionArg) (time gap absgap : ℚ) (nsol : Int) (offset : ℚ) :
    Option String × List EngineCall :=
  let r := _optimize g selfScip solArg time gap absgap nsol offset
  (r.1, .setObjsense .minimize :: r.2)

/-- solver_restart from src/unnamed/part_000: SCIPfreeTransform, which
returns the session to the unsolved stage. -/
def solver_restart (g : EngineOracle) : Option String × List EngineCall :=
  if g.freeTransformOk then (none, [.freeTransform])
  else (some "scip freeTransform error", [])

/-- The constraint argument of solver_unconstrain as the C code sees it:
the tp_name of the object, the scip pointer of the session that created
it, and an identity for the underlying SCIP constraint. -/
structure PyConsArg where
  tp_name : String
  owner : Nat
  consId : Nat
  deriving DecidableEq, Repr

/-- solver_unconstrain from src/unnamed/part_000: reject an argument
whose type name is not the constraint type; otherwise restart the solver
(return value ignored, any pending error stays) and then delete the
constraint with SCIPdelCons.  The scip pointer stored on the constraint
object is never consulted.  Returns (pending error, engine trace). -/
def solver_unconstrain (g : EngineOracle) (c : PyConsArg) :
    Option String × List EngineCall :=
  if c.tp_name ≠ CONSTRAINT_TYPE_NAME then
    (some "invalid constraint type", [])
  else
    let r := solver_restart g
    if g.delConsOk then
      (r.1, r.2 ++ [.delCons c.consId])
    else
      (some "scip delCons error", r.2)

/-! Theorems for the claims. -/

/-- C1, counterexample: declaring a binary variable with requested
bounds lower = 5, upper = 2 leaves the cached lower bound at 5, outside
[0, 1] — only the lower-to-0 and upper-to-1 clips exist, so a requested
lower above 1 survives, refuting the claim that both cached bounds lie
in [0, 1] regardless of the requested values. -/
theorem c1_counterexample :
    (variable_init {} SOLVER_TYPE_NAME SCIP_VARTYPE_BINARY 0 5 2 0).2.1 =
      some { lower := 5, upper := 1 } ∧ ¬ ((5 : ℚ) ≤ 1) := by
  constructor
  · decide
  · norm_num

/-- C1, amended: for a binary variable that gets declared, the cached
lower bound is the requested lower clamped up to at least 0, and the
cached upper bound is the requested upper clamped down to at most 1;
hence lower is at least 0 and upper is at most 1, but a requested lower
above 1 or a requested upper below 0 is kept as requested, so the cached
bounds need not lie in [0, 1]. -/
theorem c1_binary_bounds_clamped (g : EngineOracle) (solverName : String)
    (c lhs rhs : ℚ) (p : Int) (st : VarState)
    (h : (variable_init g solverName SCIP_VARTYPE_BINARY c lhs rhs p).2.1 =
      some st) :
    st.lower = (if lhs < 0 then 0 else lhs) ∧
    st.upper = (if rhs > 1 then 1 else rhs) ∧
    0 ≤ st.lower ∧ st.upper ≤ 1 := by
  have key : (variable_init g solverName SCIP_VARTYPE_BINARY c lhs rhs p).2.1
        = none ∨
      (variable_init g solverName SCIP_VARTYPE_BINARY c lhs rhs p).2.1 =
        some { lower := if lhs < 0 then 0 else lhs,
               upper := if rhs > 1 then 1 else rhs } := by
    simp only [variable_init]
    split_ifs <;> simp_all
  rw [h] at key
  rcases key with k | k
  · exact absurd k (by simp)
  · have hst : st = { lower := if lhs < 0 then 0 else lhs,
                      upper := if rhs > 1 then 1 else rhs } :=
      Option.some.inj k
    subst hst
    refine ⟨rfl, rfl, ?_, ?_⟩
    · show (0 : ℚ) ≤ if lhs < 0 then 0 else lhs
      split_ifs with hl
      · norm_num
      · exact le_of_not_lt hl
    · show (if rhs > 1 then 1 else rhs) ≤ (1 : ℚ)
      split_ifs with hr
      · norm_num
      · exact le_of_not_lt hr

/-- C1, witness for the amended theorem at a concrete input: a binary
variable requested with bounds [-5, 5] is cached with bounds [0, 1]. -/
theorem c1_witness :
    (variable_init {} SOLVER_TYPE_NAME SCIP_VARTYPE_BINARY 0 (-5) 5 0).2.1 =
      some { lower := 0, upper := 1 } ∧
    (0 : ℚ) ≤ 0 ∧ (1 : ℚ) ≤ 1 := by
  have hd : (variable_init {} SOLVER_TYPE_NAME SCIP_VARTYPE_BINARY
      0 (-5) 5 0).2.1 = some { lower := 0, upper := 1 } := by decide
  have h := c1_binary_bounds_clamped {} SOLVER_TYPE_NAME 0 (-5) 5 0
    { lower := 0, upper := 1 } hd
  exact ⟨hd, h.2.2.1, h.2.2.2⟩

/-- C6: the bound tighteners are monotone no-ops on non-improving
numeric input — a value not strictly above the cached lower (for
tighten_lower) or not strictly below the cached upper (for
tighten_upper) changes nothing and issues no engine call — while a
strictly tightening value is committed to the engine and the cached
bound is updated. -/
theorem c6_tighten_bounds_monotone (g : EngineOracle) (s : VarState)
    (v : PyValue) :
    (v.isNumeric = true → ¬ v.asDouble > s.lower →
      variable_tighten_lower g s v = (none, s, [])) ∧
    (v.isNumeric = true → v.asDouble > s.lower → g.chgVarLbOk = true →
      variable_tighten_lower g s v =
        (none, { s with lower := v.asDouble }, [.chgVarLb v.asDouble])) ∧
    (v.isNumeric = true → ¬ v.asDouble < s.upper →
      variable_tighten_upper g s v = (none, s, [])) ∧
    (v.isNumeric = true → v.asDouble < s.upper → g.chgVarUbOk = true →
      variable_tighten_upper g s v =
        (none, { s with upper := v.asDouble }, [.chgVarUb v.asDouble])) := by
  refine ⟨?_, ?_, ?_, ?_⟩
  · intro h1 h2
    simp [variable_tighten_lower, h1, h2]
  · intro h1 h2 h3
    simp [variable_tighten_lower, h1, h2, h3]
  · intro h1 h2
    simp [variable_tighten_upper, h1, h2]
  · intro h1 h2 h3
    simp [variable_tighten_upper, h1, h2, h3]

/-- C6, witness at concrete inputs: re-applying the current lower bound
0 to a variable with cached bounds [0, 10] is a silent no-op, and
tightening the lower bound to 3 commits the engine call and caches 3. -/
theorem c6_witness :
    variable_tighten_lower {} { lower := 0, upper := 10 } (.int 0) =
      (none, { lower := 0, upper := 10 }, []) ∧
    variable_tighten_lower {} { lower := 0, upper := 10 } (.int 3) =
      (none, { lower := 3, upper := 10 }, [.chgVarLb 3]) := by
  have h1 := c6_tighten_bounds_monotone {} { lower := 0, upper := 10 }
    (.int 0)
  have h2 := c6_tighten_bounds_monotone {} { lower := 0, upper := 10 }
    (.int 3)
  exact ⟨h1.1 rfl (by norm_num [PyValue.asDouble]),
         h2.2.1 rfl (by norm_num [PyValue.asDouble]) rfl⟩

/-- C9, counterexample: a Python float is a numeric value, yet writing
it to the priority attribute raises the validation error and leaves the
engine priority unchanged — the setter accepts only Python ints, so the
claim that any numeric value succeeds is false. -/
theorem c9_counterexample :
    PyValue.isNumeric (.float 2) = true ∧
    variable_setattr {} 7 "priority" (.float 2) =
      (.errSet "invalid value for variable branching priority", 7, []) := by
  exact ⟨rfl, by decide⟩

/-- C9, amended: reading the priority attribute returns the live engine
branching priority; writing a Python int applies it immediately to the
engine and succeeds; writing any non-int value — including numeric
floats — raises a validation error, issues no engine call and leaves
the priority unchanged. -/
theorem c9_priority_attribute (g : EngineOracle) (p n : Int)
    (v : PyValue) :
    variable_getattr p "priority" = .value p ∧
    (g.chgPrioOk = true →
      variable_setattr g p "priority" (.int n) =
        (.ok, n, [.chgBranchPriority n])) ∧
    (v.isInt = false →
      variable_setattr g p "priority" v =
        (.errSet "invalid value for variable branching priority", p, [])) := by
  refine ⟨rfl, ?_, ?_⟩
  · intro h
    simp [variable_setattr, h]
  · intro h
    cases v <;> simp_all [variable_setattr, PyValue.isInt]

/-- C9, witness at concrete inputs: priority 3 reads back as 3, writing
the int 5 commits and updates, and writing a non-int raises the error
and leaves the priority at 3. -/
theorem c9_witness :
    variable_getattr 3 "priority" = .value 3 ∧
    variable_setattr {} 3 "priority" (.int 5) =
      (.ok, 5, [.chgBranchPriority 5]) ∧
    variable_setattr {} 3 "priority" .other =
      (.errSet "invalid value for variable branching priority", 3, []) := by
  have h := c9_priority_attribute {} 3 5 .other
  exact ⟨h.1, h.2.1 rfl, h.2.2 rfl⟩

/-- The first validation pass raises whenever some entry is invalid. -/
theorem seedValidate_ne_none_of_invalid (scip : Nat) (l : List SeedEntry)
    (h : ∃ e ∈ l, SeedEntry.invalidB scip e = true) :
    seedValidate scip l ≠ none := by
  induction l with
  | nil =>
    rcases h with ⟨e, he, _⟩
    cases he
  | cons a rest ih =>
    rcases h with ⟨e, he, hinv⟩
    unfold seedValidate
    split_ifs with h1 h2 h3
    · simp
    · simp
    · simp
    · rcases List.mem_cons.mp he with rfl | hrest
      · exfalso
        simp only [SeedEntry.invalidB, decide_eq_true_eq] at hinv
        rcases hinv with hx | hx | hx
        · exact h1 hx
        · exact h2 hx
        · exact h3 hx
      · exact ih ⟨e, hrest, hinv⟩

/-- Every element of the second-pass assignment list is a SCIPsetSolVal
call. -/
theorem seedAssigns_shape (l : List SeedEntry) (c : EngineCall)
    (h : c ∈ seedAssigns l) : ∃ v d, c = .setSolVal v d := by
  unfold seedAssigns at h
  rcases List.mem_filterMap.mp h with ⟨e, -, he⟩
  split_ifs at he with hd
  exact ⟨e.key.varId, e.value.asDouble, (Option.some.inj he).symm⟩

/-- Every engine call issued in the seeding prefix — transform, create
candidate, assignments — is one of the five seeding calls. -/
theorem seed_pre_trace_shape (entries : List SeedEntry) (c : EngineCall)
    (h : c ∈ EngineCall.transformProb :: EngineCall.createSol ::
      seedAssigns entries) :
    c = .transformProb ∨ c = .createSol ∨ (∃ v d, c = .setSolVal v d) ∨
    c = .checkSolOrig ∨ c = .trySolFree := by
  rcases List.mem_cons.mp h with rfl | h
  · exact Or.inl rfl
  rcases List.mem_cons.mp h with rfl | h
  · exact Or.inr (Or.inl rfl)
  · exact Or.inr (Or.inr (Or.inl (seedAssigns_shape _ _ h)))

/-- Every engine call issued by _seed_primal is one of the five seeding
calls; in particular _seed_primal never writes limits and never solves. -/
theorem seed_primal_trace_shape (g : EngineOracle) (scip : Nat)
    (sol : Option (List SeedEntry)) (c : EngineCall)
    (h : c ∈ (_seed_primal g scip sol).2) :
    c = .transformProb ∨ c = .createSol ∨ (∃ v d, c = .setSolVal v d) ∨
    c = .checkSolOrig ∨ c = .trySolFree := by
  cases sol with
  | none => simp [_seed_primal] at h
  | some entries =>
    by_cases hl : entries.length > 0
    · cases hsv : seedValidate scip entries with
      | some msg => simp [_seed_primal, hl, hsv] at h
      | none =>
        by_cases hck : g.checkSolOk = true
        · have h2 : c ∈ (EngineCall.transformProb :: EngineCall.createSol ::
              seedAssigns entries) ++
                [EngineCall.checkSolOrig, EngineCall.trySolFree] := by
            by_cases hf : g.feasible = true
            · simpa [_seed_primal, hl, hsv, hck, hf] using h
            · simpa [_seed_primal, hl, hsv, hck, hf] using h
          rcases List.mem_append.mp h2 with h3 | h3
          · exact seed_pre_trace_shape entries c h3
          · rcases List.mem_cons.mp h3 with rfl | h4
            · exact Or.inr (Or.inr (Or.inr (Or.inl rfl)))
            · have h5 : c = EngineCall.trySolFree := by simpa using h4
              subst h5
              exact Or.inr (Or.inr (Or.inr (Or.inr rfl)))
        · have h2 : c ∈ EngineCall.transformProb :: EngineCall.createSol ::
              seedAssigns entries := by
            simpa [_seed_primal, hl, hsv, hck] using h
          exact seed_pre_trace_shape entries c h2
    · simp [_seed_primal, hl] at h

/-- C3: a non-empty seed mapping with any invalid entry — a key that is
not a variable object, a variable owned by another session, or a
non-numeric value — makes _seed_primal raise a validation error with an
empty engine trace: no transform, no candidate construction and no
value assignment happen, so the seed is rejected atomically. -/
theorem c3_invalid_seed_rejected_atomically (g : EngineOracle)
    (scip : Nat) (l : List SeedEntry)
    (h : ∃ e ∈ l, SeedEntry.invalidB scip e = true) :
    (_seed_primal g scip (some l)).1 ≠ none ∧
    (_seed_primal g scip (some l)).2 = [] := by
  have hv := seedValidate_ne_none_of_invalid scip l h
  have hl : l.length > 0 := by
    rcases h with ⟨e, he, -⟩
    cases l with
    | nil => cases he
    | cons a rest => simp
  cases hsv : seedValidate scip l with
  | none => exact absurd hsv hv
  | some msg =>
    constructor
    · simp [_seed_primal, hl, hsv]
    · simp [_seed_primal, hl, hsv]

/-- C3, witness at a concrete input: a single-entry seed whose key is a
variable object of a different session is rejected with an error and an
empty engine trace. -/
theorem c3_witness :
    (_seed_primal {} 1 (some [⟨⟨VARIABLE_TYPE_NAME, 2, 0⟩, .int 1⟩])).1 ≠
      none ∧
    (_seed_primal {} 1 (some [⟨⟨VARIABLE_TYPE_NAME, 2, 0⟩, .int 1⟩])).2 =
      [] := by
  apply c3_invalid_seed_rejected_atomically
  exact ⟨⟨⟨VARIABLE_TYPE_NAME, 2, 0⟩, .int 1⟩, by simp, by decide⟩

/-- C4: a non-empty seed that passes validation but whose candidate the
engine reports infeasible makes _seed_primal raise the infeasibility
error, yet the trace still ends by offering the candidate to the engine
with SCIPtrySolFree after the SCIPcheckSolOrig check — the feasibility
check does not gate submission. -/
theorem c4_infeasible_candidate_still_offered (g : EngineOracle)
    (scip : Nat) (l : List SeedEntry) (h1 : l ≠ [])
    (h2 : seedValidate scip l = none) (h3 : g.checkSolOk = true)
    (h4 : g.feasible = false) :
    (_seed_primal g scip (some l)).1 = some "infeasible primal solution" ∧
    (_seed_primal g scip (some l)).2 =
      .transformProb :: .createSol :: seedAssigns l ++
        [.checkSolOrig, .trySolFree] := by
  have hl : l.length > 0 := List.length_pos.mpr h1
  constructor
  · simp [_seed_primal, hl, h2, h3, h4]
  · simp [_seed_primal, hl, h2, h3, h4]

/-- C4, witness at a concrete input: a valid single-entry seed that the
engine deems infeasible raises the error and is still submitted. -/
theorem c4_witness :
    (_seed_primal { feasible := false } 1
        (some [⟨⟨VARIABLE_TYPE_NAME, 1, 0⟩, .int 1⟩])).1 =
      some "infeasible primal solution" ∧
    (_seed_primal { feasible := false } 1
        (some [⟨⟨VARIABLE_TYPE_NAME, 1, 0⟩, .int 1⟩])).2 =
      .transformProb :: .createSol ::
        seedAssigns [⟨⟨VARIABLE_TYPE_NAME, 1, 0⟩, .int 1⟩] ++
        [.checkSolOrig, .trySolFree] := by
  apply c4_infeasible_candidate_still_offered
  · simp
  · decide
  · rfl
  · rfl

/-- C5: whenever seeding raises an error, _optimize returns that error
with exactly the seeding trace — the solving clock is never reset, the
resource limits are never written and SCIPsolve never runs. -/
theorem c5_seed_failure_aborts_optimize (g : EngineOracle) (scip : Nat)
    (solArg : SolutionArg) (time gap absgap : ℚ) (nsol : Int) (offset : ℚ)
    (h : (_seed_primal g scip solArg.toSeed).1 ≠ none) :
    _optimize g scip solArg time gap absgap nsol offset =
      ((_seed_primal g scip solArg.toSeed).1,
       (_seed_primal g scip solArg.toSeed).2) ∧
    EngineCall.solve ∉
      (_optimize g scip solArg time gap absgap nsol offset).2 ∧
    (∀ t a b : ℚ, ∀ n : Int, ∀ o : ℚ,
      EngineCall.setLimits t a b n o ∉
        (_optimize g scip solArg time gap absgap nsol offset).2) := by
  cases solArg with
  | nonDict => simp [SolutionArg.toSeed, _seed_primal] at h
  | absent => simp [SolutionArg.toSeed, _seed_primal] at h
  | dict l =>
    have heq : _optimize g scip (.dict l) time gap absgap nsol offset =
        ((_seed_primal g scip (SolutionArg.dict l).toSeed).1,
         (_seed_primal g scip (SolutionArg.dict l).toSeed).2) := by
      cases hr : (_seed_primal g scip (SolutionArg.dict l).toSeed).1 with
      | none => exact absurd hr h
      | some msg =>
        simp only [SolutionArg.toSeed] at hr
        simp [_optimize, SolutionArg.toSeed, hr]
    refine ⟨heq, ?_, ?_⟩
    · rw [heq]
      intro hmem
      rcases seed_primal_trace_shape g scip _ _ hmem with
        hx | hx | ⟨v, d, hx⟩ | hx | hx <;> exact EngineCall.noConfusion hx
    · rw [heq]
      intro t a b n o hmem
      rcases seed_primal_trace_shape g scip _ _ hmem with
        hx | hx | ⟨v, d, hx⟩ | hx | hx <;> exact EngineCall.noConfusion hx

/-- C5, witness at a concrete input: an optimize call with a seed whose
value is non-numeric returns the validation error with no engine trace,
so neither limits nor solve appear. -/
theorem c5_witness :
    _optimize {} 1 (.dict [⟨⟨VARIABLE_TYPE_NAME, 1, 0⟩, .other⟩])
        3600 0 0 1 0 =
      ((_seed_primal {} 1
          (SolutionArg.dict [⟨⟨VARIABLE_TYPE_NAME, 1, 0⟩, .other⟩]).toSeed).1,
       (_seed_primal {} 1
          (SolutionArg.dict [⟨⟨VARIABLE_TYPE_NAME, 1, 0⟩, .other⟩]).toSeed).2) ∧
    EngineCall.solve ∉
      (_optimize {} 1 (.dict [⟨⟨VARIABLE_TYPE_NAME, 1, 0⟩, .other⟩])
        3600 0 0 1 0).2 ∧
    (∀ t a b : ℚ, ∀ n : Int, ∀ o : ℚ,
      EngineCall.setLimits t a b n o ∉
        (_optimize {} 1 (.dict [⟨⟨VARIABLE_TYPE_NAME, 1, 0⟩, .other⟩])
          3600 0 0 1 0).2) := by
  apply c5_seed_failure_aborts_optimize
  decide

/-- C8: a missing seed and an empty seed mapping are both complete
no-ops in _seed_primal — no validation, no engine call, no error — and
an optimize call with an empty mapping behaves exactly like one with no
mapping at all. -/
theorem c8_empty_seed_noop (g : EngineOracle) (scip : Nat)
    (time gap absgap : ℚ) (nsol : Int) (offset : ℚ) :
    _seed_primal g scip none = (none, []) ∧
    _seed_primal g scip (some []) = (none, []) ∧
    _optimize g scip (.dict []) time gap absgap nsol offset =
      _optimize g scip .absent time gap absgap nsol offset := by
  refine ⟨rfl, by simp [_seed_primal], ?_⟩
  simp [_optimize, SolutionArg.toSeed, _seed_primal]

/-- C2, counterexample: calling unconstrain on a SOLVED session with an
argument of the wrong type raises the error before the restart, so the
session stays SOLVED — it is not left in reset state, refuting the claim
that every failure leaves the session reset. -/
theorem c2_counterexample :
    (solver_unconstrain {} ⟨"list", 1, 0⟩).1 ≠ none ∧
    (applyTrace { scip := 1, stage := .solved }
      (solver_unconstrain {} ⟨"list", 1, 0⟩).2).stage = .solved := by
  constructor
  · decide
  · decide

/-- C2, amended: a successful removal restarts the session first and
then deletes, so a SOLVED session ends UNSOLVED; an engine deletion
failure still leaves the session in reset state because the reset
happens before the delete attempt; but a type mismatch on the constraint
handle is raised before the reset and leaves the session state — in
particular a SOLVED stage — unchanged. -/
theorem c2_reset_behaviour (g : EngineOracle) (s : SolverState)
    (c : PyConsArg) :
    (c.tp_name = CONSTRAINT_TYPE_NAME → g.freeTransformOk = true →
      g.delConsOk = true →
      solver_unconstrain g c = (none, [.freeTransform, .delCons c.consId]) ∧
      (applyTrace s (solver_unconstrain g c).2).stage = .unsolved) ∧
    (c.tp_name = CONSTRAINT_TYPE_NAME → g.freeTransformOk = true →
      g.delConsOk = false →
      (solver_unconstrain g c).1 ≠ none ∧
      (applyTrace s (solver_unconstrain g c).2).stage = .unsolved) ∧
    (c.tp_name ≠ CONSTRAINT_TYPE_NAME →
      (solver_unconstrain g c).1 ≠ none ∧
      applyTrace s (solver_unconstrain g c).2 = s) := by
  refine ⟨?_, ?_, ?_⟩
  · intro h1 h2 h3
    constructor
    · simp [solver_unconstrain, solver_restart, h1, h2, h3]
    · simp [solver_unconstrain, solver_restart, h1, h2, h3, applyTrace,
        applyCall]
  · intro h1 h2 h3
    constructor
    · simp [solver_unconstrain, solver_restart, h1, h2, h3]
    · simp [solver_unconstrain, solver_restart, h1, h2, h3, applyTrace,
        applyCall]
  · intro h1
    constructor
    · simp [solver_unconstrain, h1]
    · simp [solver_unconstrain, h1, applyTrace]

/-- C2, witness for the amended theorem at a concrete input: removing a
well-typed constraint from a SOLVED session succeeds and leaves the
session UNSOLVED. -/
theorem c2_witness :
    (solver_unconstrain {} ⟨CONSTRAINT_TYPE_NAME, 1, 5⟩ =
      (none, [.freeTransform, .delCons 5])) ∧
    (applyTrace { scip := 1, stage := .solved }
      (solver_unconstrain {} ⟨CONSTRAINT_TYPE_NAME, 1, 5⟩).2).stage =
      .unsolved := by
  have h := c2_reset_behaviour {} { scip := 1, stage := .solved }
    ⟨CONSTRAINT_TYPE_NAME, 1, 5⟩
  exact h.1 rfl rfl rfl

/-- C7, counterexample: a maximize call on a session whose sense is
minimize, carrying a seed with a non-numeric value, is rejected with a
validation error — yet the objective sense has already been switched to
maximize, so the rejected call does not leave the sense as it was. -/
theorem c7_counterexample :
    (solver_maximize {} 1 (.dict [⟨⟨VARIABLE_TYPE_NAME, 1, 0⟩, .other⟩])
      3600 0 0 1 0).1 ≠ none ∧
    (applyTrace { scip := 1, sense := .minimize }
      (solver_maximize {} 1 (.dict [⟨⟨VARIABLE_TYPE_NAME, 1, 0⟩, .other⟩])
        3600 0 0 1 0).2).sense = .maximize := by
  constructor
  · decide
  · decide

/-- C7, amended: a validation error during seeding is raised before any
further engine call of the optimize operation — the rejected maximize
call issues exactly the objective-sense change, so the stage and every
limit setting are unchanged — but the objective sense itself has already
been set to the requested direction before seeding runs. -/
theorem c7_validation_before_engine (g : EngineOracle) (s : SolverState)
    (l : List SeedEntry) (time gap absgap : ℚ) (nsol : Int) (offset : ℚ)
    (h : seedValidate s.scip l ≠ none) :
    (solver_maximize g s.scip (.dict l) time gap absgap nsol offset).1 ≠
      none ∧
    (solver_maximize g s.scip (.dict l) time gap absgap nsol offset).2 =
      [.setObjsense .maximize] ∧
    applyTrace s
      (solver_maximize g s.scip (.dict l) time gap absgap nsol offset).2 =
      { s with sense := .maximize } := by
  cases hsv : seedValidate s.scip l with
  | none => exact absurd hsv h
  | some msg =>
    have hl : l.length > 0 := by
      cases l with
      | nil => simp [seedValidate] at hsv
      | cons a rest => simp
    have hseed : _seed_primal g s.scip (some l) = (some msg, []) := by
      simp [_seed_primal, hl, hsv]
    have hopt : _optimize g s.scip (.dict l) time gap absgap nsol offset =
        (some msg, []) := by
      simp [_optimize, SolutionArg.toSeed, hseed]
    refine ⟨?_, ?_, ?_⟩
    · simp [solver_maximize, hopt]
    · simp [solver_maximize, hopt]
    · simp [solver_maximize, hopt, applyTrace, applyCall]

/-- C7, witness for the amended theorem at a concrete input: a maximize
call with a cross-session seed variable is rejected, issues only the
sense change, and flips the sense of a minimizing session. -/
theorem c7_witness :
    (solver_maximize {} 1 (.dict [⟨⟨VARIABLE_TYPE_NAME, 2, 0⟩, .int 1⟩])
      3600 0 0 1 0).1 ≠ none ∧
    (solver_maximize {} 1 (.dict [⟨⟨VARIABLE_TYPE_NAME, 2, 0⟩, .int 1⟩])
      3600 0 0 1 0).2 = [.setObjsense .maximize] ∧
    applyTrace { scip := 1, sense := .minimize }
      (solver_maximize {} 1 (.dict [⟨⟨VARIABLE_TYPE_NAME, 2, 0⟩, .int 1⟩])
        3600 0 0 1 0).2 =
      { scip := 1, sense := .maximize } := by
  have h := c7_validation_before_engine {} { scip := 1, sense := .minimize }
    [⟨⟨VARIABLE_TYPE_NAME, 2, 0⟩, .int 1⟩] 3600 0 0 1 0 (by decide)
  exact h

/-- C10: unconstrain validates only the type name of its argument — a
well-typed constraint handle created by a different session (its stored
owner differs from this session) passes validation and is forwarded to
the restart and to the engine delete call; ownership is never checked. -/
theorem c10_no_ownership_check (g : EngineOracle) (s : SolverState)
    (c : PyConsArg) (h1 : c.tp_name = CONSTRAINT_TYPE_NAME)
    (h2 : c.owner ≠ s.scip) (h3 : g.freeTransformOk = true)
    (h4 : g.delConsOk = true) :
    solver_unconstrain g c = (none, [.freeTransform, .delCons c.consId]) := by
  simp [solver_unconstrain, solver_restart, h1, h3, h4]

/-- C10, witness at a concrete input: a constraint owned by session 2 is
removed through session 1 without any validation error. -/
theorem c10_witness :
    solver_unconstrain {} ⟨CONSTRAINT_TYPE_NAME, 2, 7⟩ =
      (none, [.freeTransform, .delCons 7]) := by
  exact c10_no_ownership_check {} { scip := 1 } ⟨CONSTRAINT_TYPE_NAME, 2, 7⟩
    rfl (by decide) rfl rfl

end PyZibopt
